import Mathlib

/-!
Shallow embedding of the authorization middleware and security-token
workflows of the firebase-auth-sdk service (src/middleware/auth.js,
src/controllers/userController.js, src/models/userModel.js), together
with theorems checking the specification's claims about them.

JavaScript strings are modeled as Lean `String`; record fields that a
Firestore document may lack (JS `undefined`) are modeled as `Option`
fields with `none` for "key absent".  External collaborators (Firebase
Auth, Firestore, the mailer) are modeled by explicit parameters: a
verification function, an association-list store, and boolean
success/failure switches; side effects on the identity provider and the
mailer are recorded in an event trace so that ordering properties can be
stated.
-/

/-- Model of JavaScript `String.prototype.split(' ')` on the character
list of the string: splits at every single space, keeping empty pieces
(so `"Bearer ".split(' ') = ["Bearer", ""]`, as in JS). -/
def splitSpAux : List Char → List Char → List String
  | [], acc => [String.mk acc.reverse]
  | c :: cs, acc =>
    if c = ' ' then String.mk acc.reverse :: splitSpAux cs []
    else splitSpAux cs (c :: acc)

/-- JavaScript `s.split(' ')`. -/
def jsSplitSpace (s : String) : List String := splitSpAux s.data []

/-- JavaScript `s.startsWith(p)`. -/
def jsStartsWith (s p : String) : Bool := p.data.isPrefixOf s.data

/-- JavaScript falsiness of an optional string value: `undefined` and the
empty string are falsy. -/
def falsyStr : Option String → Bool
  | none => true
  | some s => s = ""

/-- Verified-token claims produced by `auth.verifyIdToken` (the fields the
middleware reads: `uid`, `email`, `email_verified`; the last may be absent,
the code applies `|| false`). -/
structure TokenClaims where
  uid : String
  email : String
  email_verified : Option Bool
deriving DecidableEq, Repr

/-- Result of `auth.verifyIdToken`: either decoded claims or a thrown error
carrying a Firebase error code string (e.g. `auth/id-token-expired`). -/
inductive VerifyResult where
  | ok (claims : TokenClaims)
  | err (code : String)
deriving DecidableEq, Repr

/-- Fields of a Firestore `users/{id}` document that the modeled code reads
or writes.  `none` means the key is absent from the document (JS
`undefined`); Firestore `null` values on the token fields are also modeled
as `none`, since both fail the equality and range filters used by the
token-lookup queries and both are distinct from every live string/number.
`extra` stands for all remaining profile fields. -/
structure ProfileDoc where
  uid : Option String := none
  email : Option String := none
  emailVerified : Option Bool := none
  role : Option String := none
  status : Option String := none
  displayName : Option String := none
  resetToken : Option String := none
  resetTokenExpiry : Option Nat := none
  emailVerificationToken : Option String := none
  emailVerificationExpires : Option Nat := none
  password : Option String := none
  tokens : Option String := none
  extra : List (String × String) := []
deriving DecidableEq, Repr

/-- The `users` collection: association list from document id to document. -/
abbrev Store := List (String × ProfileDoc)

/-- Point lookup `collection.doc(uid).get()` /
`UserModel.getUserById` without the `{id: doc.id, ...}` wrapper: the
document stored under `uid`, if any. -/
def findDoc (store : Store) (uid : String) : Option ProfileDoc :=
  (store.find? (fun p => p.1 == uid)).map (fun p => p.2)

/-- Field update `doc(docId).update(...)` applied through `f` to the
document with id `docId` (document ids are unique in Firestore; mapping
over the list applies the update to every entry with that id). -/
def updateDoc (store : Store) (docId : String) (f : ProfileDoc → ProfileDoc) : Store :=
  store.map (fun p => if p.1 = docId then (p.1, f p.2) else p)

/-- The authenticated principal `req.user` built by the middleware on
success.  `doc` carries the whole profile record the remaining fields come
from. -/
structure Principal where
  id : String
  email : String
  emailVerified : Bool
  doc : ProfileDoc
deriving DecidableEq, Repr

/-- auth.js lines 101-107:
`req.user = { id: decodedToken.uid, email: decodedToken.email,
emailVerified: decodedToken.email_verified || false, ...user }` where
`user = { id: doc.id, ...doc.data() }` from `UserModel.getUserById`.
JS object spread: keys of `user` override the three token-claim entries
whenever the profile document carries the key (`Option` field `some`);
`user.id` is always present (it is the document id, which equals the
looked-up `decodedToken.uid`). -/
def mkPrincipal (tok : TokenClaims) (docId : String) (d : ProfileDoc) : Principal :=
  { id := docId
  , email := d.email.getD tok.email
  , emailVerified := d.emailVerified.getD (tok.email_verified.getD false)
  , doc := d }

/-- An auth-middleware rejection body: HTTP status, machine `code`, and the
extra `status` key that only the `ACCOUNT_INACTIVE` body carries. -/
structure AuthResponse where
  status : Nat
  code : String
  statusField : Option String := none
deriving DecidableEq, Repr

/-- Outcome of the `isAuthenticated` middleware: either a JSON rejection or
`next()` with `req.user` set. -/
inductive AuthOutcome where
  | reject (r : AuthResponse)
  | success (p : Principal)
deriving DecidableEq, Repr

/-- auth.js `isAuthenticated` (lines 10-123).  Parameters model the
collaborators: `verify` is `auth.verifyIdToken` (total function returning
either claims or the thrown error's code; any error code other than the
three handled ones is rethrown and caught by the outer handler as
`AUTH_ERROR` 500), `store`/`dbFails` model the Firestore lookup
(`dbFails = true` means `UserModel.getUserById` threw). -/
def isAuthenticated (authHeader : Option String) (verify : String → VerifyResult)
    (store : Store) (dbFails : Bool) : AuthOutcome :=
  match authHeader with
  | none => .reject { status := 401, code := "MISSING_AUTH_TOKEN" }
  | some h =>
    if jsStartsWith h "Bearer " then
      let token := (jsSplitSpace h).getD 1 ""
      if token = "" then
        .reject { status := 401, code := "EMPTY_AUTH_TOKEN" }
      else
        match verify token with
        | .err c =>
          if c = "auth/id-token-expired" then
            .reject { status := 401, code := "TOKEN_EXPIRED" }
          else if c = "auth/argument-error" || c = "auth/invalid-id-token" then
            .reject { status := 400, code := "INVALID_TOKEN" }
          else
            .reject { status := 500, code := "AUTH_ERROR" }
        | .ok tok =>
          if dbFails then
            .reject { status := 500, code := "USER_FETCH_ERROR" }
          else
            match findDoc store tok.uid with
            | none => .reject { status := 404, code := "USER_NOT_FOUND" }
            | some d =>
              if d.status ≠ some "active" then
                .reject { status := 403, code := "ACCOUNT_INACTIVE", statusField := d.status }
              else
                .success (mkPrincipal tok tok.uid d)
    else
      .reject { status := 401, code := "MISSING_AUTH_TOKEN" }

/-- Outcome of a gate middleware: `next()` or a JSON denial. -/
inductive GateOutcome where
  | allow
  | deny (status : Nat) (err : String)
deriving DecidableEq, Repr

/-- auth.js `isOwnerOrAdmin(idParam)` (lines 195-228) applied to a request:
`user` is `req.user` (absent when `isAuthenticated` did not run) and
`resourceId` is `req.params[idParam]` (absent when the route has no such
parameter).  JS strict comparison `resourceId !== req.user.id` fails
exactly when `resourceId` is that string value. -/
def isOwnerOrAdmin (user : Option Principal) (resourceId : Option String) : GateOutcome :=
  match user with
  | none => .deny 401 "No autenticado"
  | some u =>
    if u.doc.role = some "admin" then .allow
    else if resourceId ≠ some u.id then .deny 403 "Acceso denegado"
    else .allow

/-- External side effects performed by the controllers, in execution
order: updates on the identity provider (`auth.updateUser`), writes to the
profile store, and successfully delivered emails. -/
inductive Event where
  | providerSetPassword (uid : Option String) (pw : String)
  | providerMarkVerified (uid : Option String)
  | storeUpdate (docId : String)
  | emailSent (addr : String)
deriving DecidableEq, Repr

/-- Result of running a controller: HTTP status, response body message,
the store after the request, and the trace of external side effects in
the order they happened. -/
structure CtrlResult where
  status : Nat
  body : String
  store : Store
  events : List Event
deriving DecidableEq, Repr

/-- Firestore range filter `where(expiryField, '>', Date.now())`: holds
when the field is present and strictly greater than `now` (an absent or
null field matches no range filter). -/
def expiryLive : Option Nat → Nat → Bool
  | some e, now => decide (now < e)
  | none, _ => false

/-- Predicate of the query
`where('resetToken','==',token).where('resetTokenExpiry','>',Date.now())`. -/
def resetTokenLive (d : ProfileDoc) (token : String) (now : Nat) : Bool :=
  d.resetToken == some token && expiryLive d.resetTokenExpiry now

/-- Predicate of the query
`where('emailVerificationToken','==',token).where('emailVerificationExpires','>',Date.now())`. -/
def verifyTokenLive (d : ProfileDoc) (token : String) (now : Nat) : Bool :=
  d.emailVerificationToken == some token && expiryLive d.emailVerificationExpires now

/-- The `limit(1)` query of `resetPassword`: first document whose reset
token equals `token` and whose expiry is still in the future. -/
def findByResetToken (store : Store) (token : String) (now : Nat) :
    Option (String × ProfileDoc) :=
  store.find? (fun p => resetTokenLive p.2 token now)

/-- The `limit(1)` query of `verifyEmail`. -/
def findByVerifyToken (store : Store) (token : String) (now : Nat) :
    Option (String × ProfileDoc) :=
  store.find? (fun p => verifyTokenLive p.2 token now)

/-- userController.js `resetPassword` (lines 400-439).  `authFails` models
`auth.updateUser` throwing (in which case no provider side effect is
applied and the outer catch returns 500); `now` is `Date.now()`. -/
def resetPassword (authFails : Bool) (store : Store)
    (token newPassword : Option String) (now : Nat) : CtrlResult :=
  if falsyStr token || falsyStr newPassword then
    { status := 400, body := "Token and new password are required"
    , store := store, events := [] }
  else
    match findByResetToken store (token.getD "") now with
    | none =>
      { status := 400, body := "Invalid or expired token"
      , store := store, events := [] }
    | some (docId, d) =>
      if authFails then
        { status := 500, body := "Error resetting password"
        , store := store, events := [] }
      else
        { status := 200, body := "Password has been reset successfully"
        , store := updateDoc store docId
            (fun x => { x with resetToken := none, resetTokenExpiry := none })
        , events := [Event.providerSetPassword d.uid (newPassword.getD ""),
                     Event.storeUpdate docId] }

/-- userController.js `verifyEmail` (lines 442-483).  `token` is
`req.query.token` (absent or empty string are both falsy in
`if (!token)`). -/
def verifyEmail (authFails : Bool) (store : Store) (token : Option String)
    (now : Nat) : CtrlResult :=
  if falsyStr token then
    { status := 400, body := "Verification token is required"
    , store := store, events := [] }
  else
    match findByVerifyToken store (token.getD "") now with
    | none =>
      { status := 400, body := "Invalid or expired verification token"
      , store := store, events := [] }
    | some (docId, d) =>
      if authFails then
        { status := 500, body := "Error verifying email"
        , store := store, events := [] }
      else
        { status := 200, body := "Email verified successfully"
        , store := updateDoc store docId
            (fun x => { x with
                        emailVerified := some true,
                        emailVerificationToken := none,
                        emailVerificationExpires := none })
        , events := [Event.providerMarkVerified d.uid,
                     Event.storeUpdate docId] }

/-- Auth-service user record returned by `auth.getUserByEmail` /
`auth.getUser` (the fields the modeled controllers read). -/
structure AuthUser where
  uid : String
  email : String
  displayName : Option String := none
deriving DecidableEq, Repr

/-- The generic body returned by `requestPasswordReset` whether or not the
email has an account. -/
def resetGenericMsg : String :=
  "If an account with that email exists, a password reset link has been sent"

/-- userController.js `requestPasswordReset` (lines 355-397).  `authUser`
is the result of `auth.getUserByEmail(email).catch(() => null)`; `sendOk`
models whether `emailService.sendPasswordResetEmail` succeeds;
`freshToken` is the generated random token and `now` is `Date.now()`.
A Firestore `update` on a missing document throws, reaching the outer
catch (500). -/
def requestPasswordReset (authUser : Option AuthUser) (sendOk : Bool)
    (freshToken : String) (now : Nat) (store : Store) : CtrlResult :=
  match authUser with
  | none =>
    { status := 200, body := resetGenericMsg, store := store, events := [] }
  | some u =>
    if (findDoc store u.uid).isNone then
      { status := 500, body := "Error processing password reset request"
      , store := store, events := [] }
    else
      let store2 := updateDoc store u.uid
        (fun x => { x with
                    resetToken := some freshToken,
                    resetTokenExpiry := some (now + 3600000) })
      if sendOk then
        { status := 200, body := resetGenericMsg, store := store2
        , events := [Event.storeUpdate u.uid, Event.emailSent u.email] }
      else
        { status := 500, body := "Error sending password reset email"
        , store := store2, events := [Event.storeUpdate u.uid] }

/-- Auth-service record fields merged into the `getUserById` response. -/
structure AuthRecord where
  email : String
  emailVerified : Bool
  disabled : Bool
deriving DecidableEq, Repr

/-- Success body of the `getUserById` controller. -/
structure UserView where
  id : String
  email : Option String
  emailVerified : Option Bool
  disabled : Option Bool
  resetToken : Option String
  resetTokenExpiry : Option Nat
  emailVerificationToken : Option String
  emailVerificationExpires : Option Nat
  role : Option String
  status : Option String
  extra : List (String × String)
deriving DecidableEq, Repr

/-- userController.js lines 281-297: the success body is
`{ id, email: authUser.email, emailVerified, disabled, metadata, ...user }`
(or `{ id, ...user }` when the auth record is missing), with
`user = { id: doc.id, ...doc.data() }`.  The trailing spread places every
stored profile field, the live token and expiry fields included, verbatim
in the response, overriding the auth-record values when present. -/
def mkUserView (docId : String) (a : Option AuthRecord) (d : ProfileDoc) : UserView :=
  { id := docId
  , email := (match d.email with
      | some e => some e
      | none => a.map (fun r => r.email))
  , emailVerified := (match d.emailVerified with
      | some b => some b
      | none => a.map (fun r => r.emailVerified))
  , disabled := a.map (fun r => r.disabled)
  , resetToken := d.resetToken
  , resetTokenExpiry := d.resetTokenExpiry
  , emailVerificationToken := d.emailVerificationToken
  , emailVerificationExpires := d.emailVerificationExpires
  , role := d.role
  , status := d.status
  , extra := d.extra }

/-- Outcome of the `getUserById` controller. -/
inductive CtrlOutcome where
  | ok (v : UserView)
  | err (status : Nat) (msg : String)
deriving DecidableEq, Repr

/-- userController.js `getUserById` (lines 254-310).  `requester` is
`req.user`; `authRec` is the `auth.getUser(id)` result (`none` models the
`auth/user-not-found` fallback that returns `{ id, ...user }`). -/
def getUserByIdCtrl (requester : Principal) (targetId : String)
    (store : Store) (authRec : Option AuthRecord) : CtrlOutcome :=
  if requester.doc.role ≠ some "admin" ∧ requester.id ≠ targetId then
    .err 403 "No autorizado"
  else
    match findDoc store targetId with
    | none => .err 404 "Usuario no encontrado"
    | some d => .ok (mkUserView targetId authRec d)

/-- userModel.js `searchUsers` lines 152-158: per returned document, the
destructuring `const { password, tokens, ...safeUserData } = userData`
removes exactly the `password` and `tokens` keys and keeps every other
field. -/
def sanitizeDoc (d : ProfileDoc) : ProfileDoc :=
  { d with password := none, tokens := none }

/-- userModel.js `searchUsers` result set: the documents matching the
role/status equality filters, each sanitized by `sanitizeDoc` and paired
with its id (`{ id: doc.id, ...safeUserData }`). -/
def searchUsersModel (store : Store) (role status : Option String) :
    List (String × ProfileDoc) :=
  (store.filter (fun p =>
      (match role with | some r => p.2.role == some r | none => true)
      && (match status with | some s => p.2.status == some s | none => true))).map
    (fun p => (p.1, sanitizeDoc p.2))

/-! Helper lemmas shared by the claim theorems. -/

/-- The range filter accepts exactly the documents whose expiry field is
present and strictly in the future. -/
theorem expiryLive_eq_true (o : Option Nat) (now : Nat) :
    expiryLive o now = true ↔ ∃ e, o = some e ∧ now < e := by
  cases o <;> simp [expiryLive]

/-- Claim C9: a request with no Authorization header, or with a header not
prefixed "Bearer ", is rejected 401 with code MISSING_AUTH_TOKEN; a header
that is "Bearer " followed by the empty token is rejected 401 with code
EMPTY_AUTH_TOKEN. -/
theorem missing_or_empty_token_rejected (verify : String → VerifyResult)
    (store : Store) (dbFails : Bool) (h : String) :
    isAuthenticated none verify store dbFails
        = .reject { status := 401, code := "MISSING_AUTH_TOKEN" }
  ∧ (jsStartsWith h "Bearer " = false →
      isAuthenticated (some h) verify store dbFails
        = .reject { status := 401, code := "MISSING_AUTH_TOKEN" })
  ∧ isAuthenticated (some "Bearer ") verify store dbFails
        = .reject { status := 401, code := "EMPTY_AUTH_TOKEN" } := by
  refine ⟨rfl, ?_, rfl⟩
  intro hpre
  simp [isAuthenticated, hpre]

/-- Claim C9 witness: the theorem applied at a concrete non-Bearer header. -/
theorem missing_or_empty_token_rejected_witness :
    jsStartsWith "Basic x" "Bearer " = false
  ∧ isAuthenticated (some "Basic x") (fun _ => .err "boom") [] false
      = .reject { status := 401, code := "MISSING_AUTH_TOKEN" } :=
  ⟨by decide,
   (missing_or_empty_token_rejected (fun _ => .err "boom") [] false "Basic x").2.1 (by decide)⟩

/-- Claim C5: when the bearer token verifies and the profile document
exists but its status differs from "active", the middleware responds 403
with code ACCOUNT_INACTIVE carrying the profile's current status, and the
chain never proceeds to success. -/
theorem inactive_account_rejected (verify : String → VerifyResult) (store : Store)
    (h t : String) (tok : TokenClaims) (d : ProfileDoc)
    (hpre : jsStartsWith h "Bearer " = true)
    (htok : (jsSplitSpace h).getD 1 "" = t)
    (hne : t ≠ "")
    (hver : verify t = .ok tok)
    (hfind : findDoc store tok.uid = some d)
    (hstat : d.status ≠ some "active") :
    isAuthenticated (some h) verify store false
        = .reject { status := 403, code := "ACCOUNT_INACTIVE", statusField := d.status }
  ∧ ∀ p : Principal, isAuthenticated (some h) verify store false ≠ .success p := by
  have htok2 : (jsSplitSpace h)[1]?.getD "" = t := by
    simpa [List.getD_eq_getElem?_getD] using htok
  have hmain : isAuthenticated (some h) verify store false
      = .reject { status := 403, code := "ACCOUNT_INACTIVE", statusField := d.status } := by
    simp [isAuthenticated, hpre, htok2, hne, hver, hfind, hstat]
  refine ⟨hmain, fun p hp => ?_⟩
  rw [hmain] at hp
  exact AuthOutcome.noConfusion hp

/-- Claim C5 witness: a concrete suspended profile is rejected 403. -/
theorem inactive_account_rejected_witness :
    isAuthenticated (some "Bearer tkn1")
        (fun _ => .ok { uid := "u1", email := "a@example.com", email_verified := some true })
        [("u1", { status := some "suspended" })] false
      = .reject { status := 403, code := "ACCOUNT_INACTIVE", statusField := some "suspended" } :=
  (inactive_account_rejected
    (fun _ => .ok { uid := "u1", email := "a@example.com", email_verified := some true })
    [("u1", { status := some "suspended" })] "Bearer tkn1" "tkn1"
    { uid := "u1", email := "a@example.com", email_verified := some true }
    { status := some "suspended" }
    (by decide) (by decide) (by decide) rfl (by decide) (by decide)).1

/-- Claim C2 counterexample: with the provider reporting
`auth/argument-error` (a malformed token), the middleware responds with
HTTP status 400, not 401 as the claim states, alongside code
INVALID_TOKEN. -/
theorem invalid_token_status_counterexample :
    isAuthenticated (some "Bearer badtok") (fun _ => .err "auth/argument-error") [] false
      = .reject { status := 400, code := "INVALID_TOKEN" }
  ∧ (400 : Nat) ≠ 401 :=
  ⟨rfl, by decide⟩

/-- Claim C2 (amended): for every request to a protected route whose bearer
token the identity provider reports as malformed or invalid
(`auth/argument-error` or `auth/invalid-id-token`), the response has HTTP
status 400 (not 401) and machine code INVALID_TOKEN. -/
theorem invalid_token_response (verify : String → VerifyResult) (store : Store)
    (dbFails : Bool) (h t c : String)
    (hpre : jsStartsWith h "Bearer " = true)
    (htok : (jsSplitSpace h).getD 1 "" = t)
    (hne : t ≠ "")
    (hver : verify t = .err c)
    (hc : c = "auth/argument-error" ∨ c = "auth/invalid-id-token") :
    isAuthenticated (some h) verify store dbFails
      = .reject { status := 400, code := "INVALID_TOKEN" } := by
  have htok2 : (jsSplitSpace h)[1]?.getD "" = t := by
    simpa [List.getD_eq_getElem?_getD] using htok
  rcases hc with hc | hc <;> subst hc <;>
    simp [isAuthenticated, hpre, htok2, hne, hver]

/-- Claim C2 witness: the amended theorem applied at a concrete malformed
token. -/
theorem invalid_token_response_witness :
    isAuthenticated (some "Bearer badtok") (fun _ => .err "auth/invalid-id-token") [] false
      = .reject { status := 400, code := "INVALID_TOKEN" } :=
  invalid_token_response (fun _ => .err "auth/invalid-id-token") [] false
    "Bearer badtok" "badtok" "auth/invalid-id-token"
    (by decide) (by decide) (by decide) rfl (Or.inr rfl)

/-- Claim C1 counterexample: the verified token carries email
`fresh@example.com` and `email_verified = true`, but the stored profile's
stale copies (`stale@example.com`, `false`) win the merge, because the
profile spread comes last; so email and emailVerified are NOT taken from
the verified token's claims when the profile also stores them. -/
theorem principal_merge_counterexample :
    isAuthenticated (some "Bearer tkn1")
        (fun s => if s = "tkn1"
          then .ok { uid := "u1", email := "fresh@example.com", email_verified := some true }
          else .err "auth/argument-error")
        [("u1", { email := some "stale@example.com", emailVerified := some false,
                  status := some "active" })] false
      = .success { id := "u1", email := "stale@example.com", emailVerified := false,
                   doc := { email := some "stale@example.com", emailVerified := some false,
                            status := some "active" } }
  ∧ "stale@example.com" ≠ "fresh@example.com" := by
  exact ⟨by decide, by decide⟩

/-- Claim C1 (amended): on success the Principal's id is the verified
token's uid (the profile record's id is the lookup key, so they coincide),
but the stored profile takes precedence for ALL overlapping keys,
including email and emailVerified: the token-claim values are used only
when the profile document lacks the key. -/
theorem principal_merge (verify : String → VerifyResult) (store : Store)
    (h t : String) (tok : TokenClaims) (d : ProfileDoc)
    (hpre : jsStartsWith h "Bearer " = true)
    (htok : (jsSplitSpace h).getD 1 "" = t)
    (hne : t ≠ "")
    (hver : verify t = .ok tok)
    (hfind : findDoc store tok.uid = some d)
    (hstat : d.status = some "active") :
    isAuthenticated (some h) verify store false
      = .success { id := tok.uid
                 , email := d.email.getD tok.email
                 , emailVerified := d.emailVerified.getD (tok.email_verified.getD false)
                 , doc := d } := by
  have htok2 : (jsSplitSpace h)[1]?.getD "" = t := by
    simpa [List.getD_eq_getElem?_getD] using htok
  simp [isAuthenticated, hpre, htok2, hne, hver, hfind, hstat, mkPrincipal]

/-- Claim C1 witness: the amended theorem applied at a concrete stale
profile, showing the stored email wins over the token's. -/
theorem principal_merge_witness :
    isAuthenticated (some "Bearer tkn1")
        (fun _ => .ok { uid := "u1", email := "fresh@example.com", email_verified := some true })
        [("u1", { email := some "stale@example.com", status := some "active" })] false
      = .success { id := "u1", email := "stale@example.com", emailVerified := true,
                   doc := { email := some "stale@example.com", status := some "active" } } :=
  principal_merge
    (fun _ => .ok { uid := "u1", email := "fresh@example.com", email_verified := some true })
    [("u1", { email := some "stale@example.com", status := some "active" })]
    "Bearer tkn1" "tkn1"
    { uid := "u1", email := "fresh@example.com", email_verified := some true }
    { email := some "stale@example.com", status := some "active" }
    (by decide) (by decide) (by decide) rfl (by decide) (by decide)

/-- Claim C6: a security token (reset-password or verify-email) validates
exactly when some stored document's token field equals the supplied token
and the current time is strictly before the stored expiry; hence a token
checked exactly at or after its expiry timestamp is rejected, and strictly
before it is accepted. -/
theorem token_validity_boundary (store : Store) (t : String) (now : Nat) :
    ((findByResetToken store t now).isSome ↔
      ∃ p ∈ store, p.2.resetToken = some t
        ∧ ∃ e, p.2.resetTokenExpiry = some e ∧ now < e)
  ∧ ((findByVerifyToken store t now).isSome ↔
      ∃ p ∈ store, p.2.emailVerificationToken = some t
        ∧ ∃ e, p.2.emailVerificationExpires = some e ∧ now < e) := by
  constructor
  · rw [findByResetToken, List.find?_isSome]
    simp [resetTokenLive, expiryLive_eq_true]
  · rw [findByVerifyToken, List.find?_isSome]
    simp [verifyTokenLive, expiryLive_eq_true]

/-- Claim C3: if the identity-provider update fails, `resetPassword` and
`verifyEmail` leave the store, and hence the matched profile's token and
expiry fields, unchanged (no nulling); when the update succeeds, the store
write that nulls the token fields appears in the side-effect trace
strictly after the identity-provider side effect. -/
theorem consume_failure_and_ordering (store : Store)
    (token newPassword vtok : Option String) (now : Nat) :
    (resetPassword true store token newPassword now).store = store
  ∧ (verifyEmail true store vtok now).store = store
  ∧ (∀ i d, falsyStr token = false → falsyStr newPassword = false →
      findByResetToken store (token.getD "") now = some (i, d) →
      (resetPassword false store token newPassword now).events
        = [Event.providerSetPassword d.uid (newPassword.getD ""), Event.storeUpdate i])
  ∧ (∀ i d, falsyStr vtok = false →
      findByVerifyToken store (vtok.getD "") now = some (i, d) →
      (verifyEmail false store vtok now).events
        = [Event.providerMarkVerified d.uid, Event.storeUpdate i]) := by
  refine ⟨?_, ?_, ?_, ?_⟩
  · unfold resetPassword
    split
    · rfl
    · split
      · rfl
      · rfl
  · unfold verifyEmail
    split
    · rfl
    · split
      · rfl
      · rfl
  · intro i d ht hp hf
    simp [resetPassword, ht, hp, hf]
  · intro i d ht hf
    simp [verifyEmail, ht, hf]

/-- Claim C3 witness: the theorem applied at a concrete store holding one
live reset token and one live verification token. -/
theorem consume_failure_and_ordering_witness :
    (resetPassword true
        [("u1", { uid := some "u1", resetToken := some "rt", resetTokenExpiry := some 100 })]
        (some "rt") (some "pw") 50).store
      = [("u1", { uid := some "u1", resetToken := some "rt", resetTokenExpiry := some 100 })]
  ∧ (resetPassword false
        [("u1", { uid := some "u1", resetToken := some "rt", resetTokenExpiry := some 100 })]
        (some "rt") (some "pw") 50).events
      = [Event.providerSetPassword (some "u1") "pw", Event.storeUpdate "u1"] := by
  have h := consume_failure_and_ordering
    [("u1", { uid := some "u1", resetToken := some "rt", resetTokenExpiry := some 100 })]
    (some "rt") (some "pw") (some "vt") 50
  exact ⟨h.1, h.2.2.1 "u1"
    { uid := some "u1", resetToken := some "rt", resetTokenExpiry := some 100 }
    (by decide) (by decide) (by decide)⟩

/-- Claim C7: once a token has been consumed (its fields nulled by a
successful `resetPassword` or `verifyEmail`), any subsequent consume
attempt with the same token value returns the Invalid response (status
400) with an empty side-effect trace, so the gated provider side effect is
not applied a second time.  `huniqR`/`huniqV` state the issuance invariant
that a live token value identifies at most one document. -/
theorem consumed_token_invalid (store : Store) (tok : String)
    (pw pw2 : Option String) (now now2 : Nat)
    (htok : tok ≠ "")
    (huniqR : ∀ p ∈ store, ∀ q ∈ store,
      p.2.resetToken = some tok → q.2.resetToken = some tok → p.1 = q.1)
    (huniqV : ∀ p ∈ store, ∀ q ∈ store,
      p.2.emailVerificationToken = some tok → q.2.emailVerificationToken = some tok → p.1 = q.1) :
    (∀ i d, falsyStr pw = false → falsyStr pw2 = false →
      findByResetToken store tok now = some (i, d) →
      resetPassword false (resetPassword false store (some tok) pw now).store (some tok) pw2 now2
        = { status := 400, body := "Invalid or expired token"
          , store := (resetPassword false store (some tok) pw now).store, events := [] })
  ∧ (∀ i d, findByVerifyToken store tok now = some (i, d) →
      verifyEmail false (verifyEmail false store (some tok) now).store (some tok) now2
        = { status := 400, body := "Invalid or expired verification token"
          , store := (verifyEmail false store (some tok) now).store, events := [] }) := by
  have hfal : falsyStr (some tok) = false := by simp [falsyStr, htok]
  constructor
  · intro i d hp hp2 hf
    have hd : d.resetToken = some tok := by
      have := List.find?_some hf
      simp [resetTokenLive] at this
      exact this.1
    have hmem : (i, d) ∈ store := List.mem_of_find?_eq_some hf
    have h1 : (resetPassword false store (some tok) pw now).store
        = updateDoc store i (fun x => { x with resetToken := none, resetTokenExpiry := none }) := by
      simp [resetPassword, hfal, hp, hf]
    have hnone : findByResetToken
        (updateDoc store i (fun x => { x with resetToken := none, resetTokenExpiry := none }))
        tok now2 = none := by
      rw [findByResetToken, List.find?_eq_none]
      intro x hx
      rw [updateDoc, List.mem_map] at hx
      obtain ⟨y, hy, hxy⟩ := hx
      by_cases hyi : y.1 = i
      · rw [if_pos hyi] at hxy
        subst hxy
        simp [resetTokenLive]
      · rw [if_neg hyi] at hxy
        subst hxy
        intro hlive
        simp [resetTokenLive, expiryLive_eq_true] at hlive
        exact hyi (huniqR y hy (i, d) hmem hlive.1 hd)
    rw [h1]
    simp [resetPassword, hfal, hp2, hnone, h1]
  · intro i d hf
    have hd : d.emailVerificationToken = some tok := by
      have := List.find?_some hf
      simp [verifyTokenLive] at this
      exact this.1
    have hmem : (i, d) ∈ store := List.mem_of_find?_eq_some hf
    have h1 : (verifyEmail false store (some tok) now).store
        = updateDoc store i (fun x => { x with
            emailVerified := some true,
            emailVerificationToken := none,
            emailVerificationExpires := none }) := by
      simp [verifyEmail, hfal, hf]
    have hnone : findByVerifyToken
        (updateDoc store i (fun x => { x with
            emailVerified := some true,
            emailVerificationToken := none,
            emailVerificationExpires := none }))
        tok now2 = none := by
      rw [findByVerifyToken, List.find?_eq_none]
      intro x hx
      rw [updateDoc, List.mem_map] at hx
      obtain ⟨y, hy, hxy⟩ := hx
      by_cases hyi : y.1 = i
      · rw [if_pos hyi] at hxy
        subst hxy
        simp [verifyTokenLive]
      · rw [if_neg hyi] at hxy
        subst hxy
        intro hlive
        simp [verifyTokenLive, expiryLive_eq_true] at hlive
        exact hyi (huniqV y hy (i, d) hmem hlive.1 hd)
    rw [h1]
    simp [verifyEmail, hfal, hnone, h1]

/-- Claim C7 witness: consuming the same reset token twice on a concrete
one-document store; the second call is a 400 with no side effects. -/
theorem consumed_token_invalid_witness :
    resetPassword false
        (resetPassword false
          [("u1", { uid := some "u1", resetToken := some "rt", resetTokenExpiry := some 100 })]
          (some "rt") (some "pw") 50).store
        (some "rt") (some "pw2") 60
      = { status := 400, body := "Invalid or expired token"
        , store := (resetPassword false
            [("u1", { uid := some "u1", resetToken := some "rt", resetTokenExpiry := some 100 })]
            (some "rt") (some "pw") 50).store
        , events := [] } := by
  have h := consumed_token_invalid
    [("u1", { uid := some "u1", resetToken := some "rt", resetTokenExpiry := some 100 })]
    "rt" (some "pw") (some "pw2") 50 60 (by decide) (by decide) (by decide)
  exact h.1 "u1" { uid := some "u1", resetToken := some "rt", resetTokenExpiry := some 100 }
    (by decide) (by decide) (by decide)

/-- Claim C4 counterexample: when the reset email fails to send, the
existing-email call answers 500 while the unknown-email call answers 200,
so the two responses are distinguishable, refuting the unconditional
identical-response claim (the no-op part for unknown emails does hold, see
the amended theorem). -/
theorem enumeration_counterexample :
    (requestPasswordReset (some { uid := "u1", email := "a@example.com" }) false "ft" 0
        [("u1", { uid := some "u1" })]).status = 500
  ∧ (requestPasswordReset none false "ft" 0 [("u1", { uid := some "u1" })]).status = 200
  ∧ (500 : Nat) ≠ 200 := by
  refine ⟨rfl, rfl, by decide⟩

/-- Claim C4 (amended): provided the reset email for the existing account
is delivered successfully (and the account's profile document exists), the
existing-email and unknown-email responses carry the same status (200) and
byte-identical bodies; for an unknown email the store is unchanged (no
reset token persisted) and the side-effect trace is empty (no email sent).
When delivery fails for an existing email the response is 500, which is
distinguishable from the unknown-email 200 (see the counterexample). -/
theorem enumeration_resistance (u : AuthUser) (sendOk : Bool)
    (t t2 : String) (now now2 : Nat) (store store2 : Store)
    (hdoc : (findDoc store u.uid).isNone = false) :
    (requestPasswordReset (some u) true t now store).status
        = (requestPasswordReset none sendOk t2 now2 store2).status
  ∧ (requestPasswordReset (some u) true t now store).body
        = (requestPasswordReset none sendOk t2 now2 store2).body
  ∧ (requestPasswordReset none sendOk t2 now2 store2).store = store2
  ∧ (requestPasswordReset none sendOk t2 now2 store2).events = [] := by
  refine ⟨?_, ?_, rfl, rfl⟩ <;> simp [requestPasswordReset, hdoc]

/-- Claim C4 witness: the amended theorem applied at a concrete account
and store. -/
theorem enumeration_resistance_witness :
    (requestPasswordReset (some { uid := "u1", email := "a@example.com" }) true "ft" 0
        [("u1", { uid := some "u1" })]).status
      = (requestPasswordReset none true "ft2" 5 []).status
  ∧ (requestPasswordReset (some { uid := "u1", email := "a@example.com" }) true "ft" 0
        [("u1", { uid := some "u1" })]).body
      = (requestPasswordReset none true "ft2" 5 []).body :=
  have h := enumeration_resistance { uid := "u1", email := "a@example.com" } true
    "ft" "ft2" 0 5 [("u1", { uid := some "u1" })] [] (by decide)
  ⟨h.1, h.2.1⟩

/-- Claim C8: the self-or-admin gate passes any principal whose role is
"admin" regardless of the resource id parameter; any other principal
passes exactly when the resource id parameter equals the principal's id,
and otherwise receives the 403 ownership denial. -/
theorem owner_or_admin_gate (u : Principal) (rid : Option String) :
    (u.doc.role = some "admin" → isOwnerOrAdmin (some u) rid = .allow)
  ∧ (u.doc.role ≠ some "admin" →
      ((isOwnerOrAdmin (some u) rid = .allow ↔ rid = some u.id)
        ∧ (rid ≠ some u.id →
            isOwnerOrAdmin (some u) rid = .deny 403 "Acceso denegado"))) := by
  refine ⟨fun hadm => by simp [isOwnerOrAdmin, hadm], fun hadm => ⟨⟨?_, ?_⟩, ?_⟩⟩
  · intro hall
    by_contra hne
    simp [isOwnerOrAdmin, hadm, hne] at hall
  · intro heq
    simp [isOwnerOrAdmin, hadm, heq]
  · intro hne
    simp [isOwnerOrAdmin, hadm, hne]

/-- Claim C8 witness: a concrete non-admin principal requesting another
user's resource is denied 403; the same principal's own resource and an
admin's foreign resource are allowed. -/
theorem owner_or_admin_gate_witness :
    isOwnerOrAdmin
        (some { id := "u1", email := "a@example.com", emailVerified := true,
                doc := { role := some "patient" } }) (some "u2")
      = .deny 403 "Acceso denegado"
  ∧ isOwnerOrAdmin
        (some { id := "u1", email := "a@example.com", emailVerified := true,
                doc := { role := some "patient" } }) (some "u1")
      = .allow
  ∧ isOwnerOrAdmin
        (some { id := "u3", email := "b@example.com", emailVerified := true,
                doc := { role := some "admin" } }) (some "u2")
      = .allow :=
  have hp := owner_or_admin_gate
    { id := "u1", email := "a@example.com", emailVerified := true,
      doc := { role := some "patient" } } (some "u2")
  have hp2 := owner_or_admin_gate
    { id := "u1", email := "a@example.com", emailVerified := true,
      doc := { role := some "patient" } } (some "u1")
  have ha := owner_or_admin_gate
    { id := "u3", email := "b@example.com", emailVerified := true,
      doc := { role := some "admin" } } (some "u2")
  ⟨(hp.2 (by decide)).2 (by decide),
   ((hp2.2 (by decide)).1).mpr rfl,
   ha.1 rfl⟩

/-- Claim C10: the success body of `getUserById` carries the stored reset
and verification token/expiry fields verbatim, and `searchUsers` removes
exactly the password and tokens keys from each returned profile (every
other field, the live security-token fields included, is preserved), so
live security tokens are disclosed through both read endpoints. -/
theorem token_fields_disclosed (requester : Principal) (targetId : String)
    (store : Store) (authRec : Option AuthRecord) (d : ProfileDoc)
    (hfind : findDoc store targetId = some d)
    (hperm : requester.doc.role = some "admin" ∨ requester.id = targetId) :
    (getUserByIdCtrl requester targetId store authRec = .ok (mkUserView targetId authRec d)
      ∧ (mkUserView targetId authRec d).resetToken = d.resetToken
      ∧ (mkUserView targetId authRec d).resetTokenExpiry = d.resetTokenExpiry
      ∧ (mkUserView targetId authRec d).emailVerificationToken = d.emailVerificationToken
      ∧ (mkUserView targetId authRec d).emailVerificationExpires = d.emailVerificationExpires)
  ∧ (∀ x : ProfileDoc, (sanitizeDoc x).password = none ∧ (sanitizeDoc x).tokens = none
      ∧ (sanitizeDoc x).resetToken = x.resetToken
      ∧ (sanitizeDoc x).resetTokenExpiry = x.resetTokenExpiry
      ∧ (sanitizeDoc x).emailVerificationToken = x.emailVerificationToken
      ∧ (sanitizeDoc x).emailVerificationExpires = x.emailVerificationExpires
      ∧ (sanitizeDoc x).uid = x.uid ∧ (sanitizeDoc x).email = x.email
      ∧ (sanitizeDoc x).emailVerified = x.emailVerified
      ∧ (sanitizeDoc x).role = x.role ∧ (sanitizeDoc x).status = x.status
      ∧ (sanitizeDoc x).displayName = x.displayName
      ∧ (sanitizeDoc x).extra = x.extra)
  ∧ (∀ r s p, p ∈ searchUsersModel store r s →
      ∃ q ∈ store, p.1 = q.1 ∧ p.2 = sanitizeDoc q.2) := by
  refine ⟨⟨?_, rfl, rfl, rfl, rfl⟩, fun x => ⟨rfl, rfl, rfl, rfl, rfl, rfl, rfl, rfl, rfl, rfl, rfl, rfl, rfl⟩, ?_⟩
  · unfold getUserByIdCtrl
    rw [if_neg, hfind]
    rcases hperm with hadm | hself
    · intro hcon
      exact hcon.1 hadm
    · intro hcon
      exact hcon.2 hself
  · intro r s p hp
    rw [searchUsersModel, List.mem_map] at hp
    obtain ⟨q, hq, hpq⟩ := hp
    rw [List.mem_filter] at hq
    exact ⟨q, hq.1, by rw [← hpq], by rw [← hpq]⟩

/-- Claim C10 witness: a concrete profile with a live reset token is
returned with the token visible through `getUserById`. -/
theorem token_fields_disclosed_witness :
    getUserByIdCtrl
        { id := "u9", email := "adm@example.com", emailVerified := true,
          doc := { role := some "admin" } }
        "u1"
        [("u1", { uid := some "u1", resetToken := some "rt", resetTokenExpiry := some 100 })]
        none
      = .ok (mkUserView "u1" none
          { uid := some "u1", resetToken := some "rt", resetTokenExpiry := some 100 })
  ∧ (mkUserView "u1" none
        { uid := some "u1", resetToken := some "rt", resetTokenExpiry := some 100 }).resetToken
      = some "rt" :=
  have h := token_fields_disclosed
    { id := "u9", email := "adm@example.com", emailVerified := true,
      doc := { role := some "admin" } }
    "u1"
    [("u1", { uid := some "u1", resetToken := some "rt", resetTokenExpiry := some 100 })]
    none
    { uid := some "u1", resetToken := some "rt", resetTokenExpiry := some 100 }
    (by decide) (Or.inl rfl)
  ⟨h.1.1, h.1.2.1⟩
